import Mathlib

/-
Shallow embedding of the LSM-tree storage engine from `lsmt_dhruv_ashray.py`.

Modelling conventions:
* A Python dict (insertion-ordered, distinct keys) is an association list
  `List (Int × String)`; `dictInsert` mirrors `d[k] = v` (overwrite in place,
  append if new) and `lookupDict` mirrors `d.get(k)` / `k in d`.
* A Python set of ints is a duplicate-free `List Int`; only membership,
  insertion, removal and clearing are used, so order never matters.
* An `SSTable`'s persisted file is modelled as the parsed list of
  `(key, value)` records, `disk : Option (List (Int × String))`;
  `disk = none` models a storage read failure for that segment (the file
  being unreadable), which is the fault the spec's read-path rules discuss.
  This elides the source's `<key>,<value>\n` line encoding: the
  `strip`/`split` parse in `read_from_disk`/`search_sstable` round-trips
  exactly the values free of ',' and of line-breaking or trailing
  whitespace, and every value in the concrete inputs below is of that
  form, so model and source agree at every input a theorem evaluates.
* Operations that can raise a Python exception return
  `Except LSMTree LSMTree`: `Except.error s` means the call raised with the
  engine left (by in-place mutation) in state `s`; `Except.ok s` is a normal
  return.  `compact_sstables` raises `ValueError` when it computes
  `range(0, len(sorted_items), self.memtable_limit)` with
  `memtable_limit = 0`, at which point the old segment files are already
  deleted and both lists cleared.
* `tqdm`, timing, printing and the interactive interface are pure
  diagnostics with no effect on engine state and are not modelled; the
  `range_search_results` attribute is initialised by `__init__` but never
  used by any method, so it is omitted.
-/

/-- dictInsert models Python dict assignment `d[k] = v`: overwrite the value
of an existing key in place, otherwise append the new binding. -/
def dictInsert (k : Int) (v : String) : List (Int × String) → List (Int × String)
  | [] => [(k, v)]
  | (k', v') :: rest => if k' = k then (k', v) :: rest else (k', v') :: dictInsert k v rest

/-- lookupDict models Python `d.get(k)` / `k in d` on an association list. -/
def lookupDict (k : Int) : List (Int × String) → Option String
  | [] => none
  | (k', v) :: rest => if k' = k then some v else lookupDict k rest

/-- dictKeys is the key sequence of an association list. -/
def dictKeys (d : List (Int × String)) : List Int := d.map Prod.fst

/-- setAdd models Python `set.add` on a duplicate-free list. -/
def setAdd (k : Int) (dl : List Int) : List Int :=
  if k ∈ dl then dl else dl ++ [k]

/-- insertSorted inserts a pair into a list sorted ascending by key. -/
def insertSorted (p : Int × String) : List (Int × String) → List (Int × String)
  | [] => [p]
  | q :: rest => if p.1 ≤ q.1 then p :: q :: rest else q :: insertSorted p rest

/-- sortByKey models Python `sorted(items)` on key-distinct pairs: ascending
by key (with distinct keys the tuple order never compares values). -/
def sortByKey : List (Int × String) → List (Int × String)
  | [] => []
  | p :: rest => insertSorted p (sortByKey rest)

/-- chunksOfAux is `chunksOf` with explicit fuel (structural recursion). -/
def chunksOfAux : Nat → Nat → List (Int × String) → List (List (Int × String))
  | 0, _, _ => []
  | _, _, [] => []
  | fuel + 1, n, x :: xs => (x :: xs.take (n - 1)) :: chunksOfAux fuel n (xs.drop (n - 1))

/-- chunksOf models the Python slicing
`[items[i:i + limit] for i in range(0, len(items), limit)]` for `limit ≥ 1`:
consecutive chunks of `n` entries, the last one possibly shorter.
(The engine only reaches this with `n ≥ 1`; `n = 0` raises first.) -/
def chunksOf (n : Nat) (l : List (Int × String)) : List (List (Int × String)) :=
  chunksOfAux l.length n l

/-- SSTable: identifier plus persisted file contents; `disk = none` models an
unreadable file (storage read failure).  The `directory`/`path` attributes
are constant functions of `id` and carry no extra state. -/
structure SSTable where
  id : Nat
  disk : Option (List (Int × String))
deriving DecidableEq

/-- segEntries is what a successful `read_from_disk` yields. -/
def segEntries (t : SSTable) : List (Int × String) := t.disk.getD []

/-- LSMTree engine state, mirroring the attributes set in `__init__`. -/
structure LSMTree where
  memtable : List (Int × String)
  sstables : List SSTable
  memtable_limit : Nat
  max_sstables : Nat
  sstable_counter : Nat
  deletion_log : List Int
  search_results : List (Int × String)
deriving DecidableEq

/-- initLSM is `LSMTree.__init__` (fresh engine). -/
def initLSM (limit maxTables : Nat) : LSMTree :=
  { memtable := [], sstables := [], memtable_limit := limit, max_sstables := maxTables,
    sstable_counter := 0, deletion_log := [], search_results := [] }

/-- tombstoneStep is the body of the compaction merge loop:
`if key not in self.deletion_log: merged_data[key] = value`. -/
def tombstoneStep (dl : List Int) (acc : List (Int × String)) (p : Int × String) :
    List (Int × String) :=
  if p.1 ∈ dl then acc else dictInsert p.1 p.2 acc

/-- mergedData is the `merged_data` dict built by `compact_sstables`:
all segments scanned oldest to newest, tombstoned keys skipped, a later
segment's value overwriting an earlier one's. -/
def mergedData (s : LSMTree) : List (Int × String) :=
  s.sstables.foldl (fun acc t => (segEntries t).foldl (tombstoneStep s.deletion_log) acc) []

/-- buildChunks writes each chunk as a fresh SSTable with consecutive ids
(the loop `for chunk in chunks` at the end of `compact_sstables`). -/
def buildChunks (c : Nat) : List (List (Int × String)) → List SSTable
  | [] => []
  | d :: rest => ⟨c, some d⟩ :: buildChunks (c + 1) rest

/-- compact_sstables from the source.  When the segment count exceeds
`max_sstables`: merge all segments (tombstones suppressed), delete every old
segment file, clear the segment list and the tombstone set, then rewrite the
sorted merge in chunks of `memtable_limit` entries.  An unreadable segment
makes the merge loop raise before any mutation (`Except.error` with the
state unchanged); `memtable_limit = 0` makes the chunking `range` raise
`ValueError` after the old segments were already destroyed. -/
def compact_sstables (s : LSMTree) : Except LSMTree LSMTree :=
  if s.max_sstables < s.sstables.length then
    if s.sstables.any (fun t => t.disk.isNone) then
      Except.error s
    else if s.memtable_limit = 0 then
      Except.error { s with sstables := [], deletion_log := [] }
    else
      Except.ok { s with
        sstables := buildChunks s.sstable_counter
          (chunksOf s.memtable_limit (sortByKey (mergedData s))),
        deletion_log := [],
        sstable_counter := s.sstable_counter +
          (chunksOf s.memtable_limit (sortByKey (mergedData s))).length }
  else Except.ok s

/-- flushData is the list handed to the new segment's `write_to_disk`: the
memtable sorted ascending by key with tombstoned keys dropped.  (The
`value is not None` guard in `write_to_disk` never fires: values are
strings.) -/
def flushData (s : LSMTree) : List (Int × String) :=
  (sortByKey s.memtable).filter (fun p => decide (p.1 ∉ s.deletion_log))

/-- flushCore is `flush_memtable` up to (but not including) its final call to
`compact_sstables`: persist the filtered sorted memtable as the newest
segment, clear the memtable, bump the id counter. -/
def flushCore (s : LSMTree) : LSMTree :=
  { s with
    sstables := s.sstables ++ [⟨s.sstable_counter, some (flushData s)⟩],
    memtable := [],
    sstable_counter := s.sstable_counter + 1 }

/-- flush_memtable from the source: write the new segment, then immediately
run the compaction threshold check. -/
def flush_memtable (s : LSMTree) : Except LSMTree LSMTree :=
  compact_sstables (flushCore s)

/-- insertState is the state after the first two statements of `insert`:
clear any tombstone for the key, then write it into the memtable. -/
def insertState (s : LSMTree) (k : Int) (v : String) : LSMTree :=
  { s with
    deletion_log := s.deletion_log.filter (fun x => decide (x ≠ k)),
    memtable := dictInsert k v s.memtable }

/-- insertOp is `insert`: update the memtable and tombstone set, then flush
when the memtable has reached `memtable_limit` entries. -/
def insertOp (s : LSMTree) (k : Int) (v : String) : Except LSMTree LSMTree :=
  if s.memtable_limit ≤ (insertState s k v).memtable.length then
    flush_memtable (insertState s k v)
  else Except.ok (insertState s k v)

/-- deleteOp is `delete`: record the tombstone and drop the key from the
memtable if present. -/
def deleteOp (s : LSMTree) (k : Int) : LSMTree :=
  { s with
    deletion_log := setAdd k s.deletion_log,
    memtable := s.memtable.filter (fun p => decide (p.1 ≠ k)) }

/-- enforce_final_compaction from the source. -/
def enforce_final_compaction (s : LSMTree) : Except LSMTree LSMTree :=
  if s.max_sstables < s.sstables.length then compact_sstables s else Except.ok s

/-- searchEntries is the scan loop of `search_sstable`: first exact match
wins, and the scan breaks early once a stored key exceeds the target. -/
def searchEntries : List (Int × String) → Int → Option String
  | [], _ => none
  | (k, v) :: rest, key =>
    if k = key then some v else if key < k then none else searchEntries rest key

/-- search_sstable from the source: any exception while reading the file is
caught and turned into `None` (no match from this segment). -/
def search_sstable (t : SSTable) (k : Int) : Option String :=
  match t.disk with
  | none => none
  | some entries => searchEntries entries k

/-- recordResult is `self.search_results[key] = result` (the diagnostics
log mutated on every successful lookup). -/
def recordResult (s : LSMTree) (k : Int) (v : String) : LSMTree :=
  { s with search_results := dictInsert k v s.search_results }

/-- findInSSTables is the segment loop of `find` (the list argument is the
segments already reversed, newest first). -/
def findInSSTables (s : LSMTree) (k : Int) : List SSTable → String × LSMTree
  | [] => ("Key not found", s)
  | t :: rest =>
    match search_sstable t k with
    | some v => (v, recordResult s k v)
    | none => findInSSTables s k rest

/-- findOp is `find`: memtable first, then segments newest to oldest; the
string "Key not found" is returned when nothing matches.  The pair is
(returned value, engine state after the call). -/
def findOp (s : LSMTree) (k : Int) : String × LSMTree :=
  match lookupDict k s.memtable with
  | some v => (v, recordResult s k v)
  | none => findInSSTables s k s.sstables.reverse

/-- rangeStepMem is the memtable loop of `range_query`. -/
def rangeStepMem (a b : Int) (acc : List (Int × String)) (p : Int × String) :
    List (Int × String) :=
  if a ≤ p.1 ∧ p.1 ≤ b then dictInsert p.1 p.2 acc else acc

/-- rangeStepSeg is the segment loop of `range_query`: keep an in-range entry
only when its key is not already in the result. -/
def rangeStepSeg (a b : Int) (acc : List (Int × String)) (p : Int × String) :
    List (Int × String) :=
  if (a ≤ p.1 ∧ p.1 ≤ b) ∧ lookupDict p.1 acc = none then dictInsert p.1 p.2 acc else acc

/-- range_query from the source.  Segments are scanned in list order (oldest
first) with no exception handling: one unreadable segment aborts the whole
query (`none`); otherwise the result dict is returned sorted by key. -/
def range_query (s : LSMTree) (a b : Int) : Option (List (Int × String)) :=
  if s.sstables.any (fun t => t.disk.isNone) then none
  else
    some (sortByKey
      (s.sstables.foldl (fun acc t => (segEntries t).foldl (rangeStepSeg a b) acc)
        (s.memtable.foldl (rangeStepMem a b) [])))

/-- runState extracts the engine state from a call outcome: Python mutates
in place, so the state is there whether or not the call raised. -/
def runState : Except LSMTree LSMTree → LSMTree
  | Except.ok s => s
  | Except.error s => s

/-- isOkE tells a normal return from a raised exception. -/
def isOkE : Except LSMTree LSMTree → Bool
  | Except.ok _ => true
  | Except.error _ => false

/-- DiskOp is one storage side effect of compaction, for stating in what
order compaction touches durable storage. -/
inductive DiskOp where
  | readSeg : Nat → DiskOp
  | deleteSeg : Nat → DiskOp
  | writeSeg : Nat → List (Int × String) → DiskOp
deriving DecidableEq

/-- compact_disk_ops projects `compact_sstables` onto its sequence of disk
operations, in source line order: first the merge reads every segment, then
`sstable.delete()` removes every old file, and only then are the replacement
chunks written (none are written when `memtable_limit = 0` raises first).
All reads are assumed to succeed (readable segments). -/
def compact_disk_ops (s : LSMTree) : List DiskOp :=
  if s.max_sstables < s.sstables.length then
    s.sstables.map (fun t => DiskOp.readSeg t.id) ++
    s.sstables.map (fun t => DiskOp.deleteSeg t.id) ++
    (if s.memtable_limit = 0 then [] else
      (buildChunks s.sstable_counter
        (chunksOf s.memtable_limit (sortByKey (mergedData s)))).map
        (fun t => DiskOp.writeSeg t.id (segEntries t)))
  else []

/-- isDeleteOp recognises a segment file deletion. -/
def isDeleteOp : DiskOp → Bool
  | DiskOp.deleteSeg _ => true
  | _ => false

/-- isWriteOp recognises a segment file write. -/
def isWriteOp : DiskOp → Bool
  | DiskOp.writeSeg _ _ => true
  | _ => false

/-- firstDeleteIdx is the position of the first segment deletion in a trace. -/
def firstDeleteIdx (tr : List DiskOp) : Nat := tr.findIdx isDeleteOp

/-- firstWriteIdx is the position of the first segment write in a trace. -/
def firstWriteIdx (tr : List DiskOp) : Nat := tr.findIdx isWriteOp

/-- stateC1 is the engine after `LSMTree(1, 5); insert(5, "v"); delete(5)`:
the insert auto-flushes key 5 into segment 0, then the delete tombstones it. -/
def stateC1 : LSMTree := deleteOp (runState (insertOp (initLSM 1 5) 5 "v")) 5

/-- stateC2 is the engine after `LSMTree(1, 5); insert(10, "a"); insert(10, "b");
delete(10)`: each insert auto-flushes, leaving segment 0 = [(10, "a")] (older)
and segment 1 = [(10, "b")] (newer), with key 10 tombstoned. -/
def stateC2 : LSMTree :=
  deleteOp (runState (insertOp (runState (insertOp (initLSM 1 5) 10 "a")) 10 "b")) 10

/-- stateB is the engine after `LSMTree(1, 1); insert(5, "v"); insert(6, "w");
delete(5)`: the second flush triggers a compaction whose two single-entry
chunks leave segments 2 = [(5, "v")] and 3 = [(6, "w")], still exceeding
`max_sstables = 1`, and then key 5 is tombstoned. -/
def stateB : LSMTree :=
  deleteOp (runState (insertOp (runState (insertOp (initLSM 1 1) 5 "v")) 6 "w")) 5

/-- stateC5 is the engine after `LSMTree(0, 5)` and five inserts: with
`memtable_limit = 0` every insert flushes, so five single-entry segments
exist and the memtable is empty. -/
def stateC5 : LSMTree :=
  runState (insertOp (runState (insertOp (runState (insertOp (runState (insertOp
    (runState (insertOp (initLSM 0 5) 1 "a")) 2 "b")) 3 "c")) 4 "d")) 5 "e")

/-- stateC8 is the engine after `LSMTree(2, 5); insert(1, "Key not found")`:
the sentinel string itself stored as an ordinary value, still in the
memtable. -/
def stateC8 : LSMTree := runState (insertOp (initLSM 2 5) 1 "Key not found")

/-- stateC9 is the engine after `LSMTree(1, 5); insert(1, "a"); insert(2, "b")`
(two single-entry segments) with segment 1's file then made unreadable
(storage read failure injected on the newer segment). -/
def stateC9 : LSMTree :=
  { runState (insertOp (runState (insertOp (initLSM 1 5) 1 "a")) 2 "b") with
    sstables := [⟨0, some [(1, "a")]⟩, ⟨1, none⟩] }

/-- stateC10 is the engine after `LSMTree(10, 5); insert(1, "a")`: one key in
the memtable, no flush. -/
def stateC10 : LSMTree := runState (insertOp (initLSM 10 5) 1 "a")

theorem insertSorted_perm (p : Int × String) (l : List (Int × String)) :
    (insertSorted p l).Perm (p :: l) := by
  induction l with
  | nil => exact List.Perm.refl _
  | cons q rest ih =>
    by_cases h : p.1 ≤ q.1
    · rw [insertSorted, if_pos h]
    · rw [insertSorted, if_neg h]
      exact (ih.cons q).trans (List.Perm.swap p q rest)

theorem insertSorted_pairwise (p : Int × String) (l : List (Int × String))
    (h : l.Pairwise (fun a b => a.1 ≤ b.1)) :
    (insertSorted p l).Pairwise (fun a b => a.1 ≤ b.1) := by
  induction l with
  | nil => simp [insertSorted]
  | cons q rest ih =>
    have h' := List.pairwise_cons.mp h
    by_cases hpq : p.1 ≤ q.1
    · rw [insertSorted, if_pos hpq]
      refine List.pairwise_cons.mpr ⟨?_, h⟩
      intro x hx
      rcases List.mem_cons.mp hx with he | hr
      · rw [he]
        exact hpq
      · exact le_trans hpq (h'.1 x hr)
    · rw [insertSorted, if_neg hpq]
      refine List.pairwise_cons.mpr ⟨?_, ih h'.2⟩
      intro x hx
      have hx' : x ∈ p :: rest := (insertSorted_perm p rest).mem_iff.mp hx
      rcases List.mem_cons.mp hx' with he | hr
      · rw [he]
        exact le_of_lt (lt_of_not_le hpq)
      · exact h'.1 x hr

theorem sortByKey_pairwise (l : List (Int × String)) :
    (sortByKey l).Pairwise (fun a b => a.1 ≤ b.1) := by
  induction l with
  | nil => simp [sortByKey]
  | cons p rest ih => exact insertSorted_pairwise p (sortByKey rest) ih

theorem flushData_sorted (s : LSMTree) :
    (flushData s).Pairwise (fun a b => a.1 ≤ b.1) :=
  List.Pairwise.sublist (List.filter_sublist _) (sortByKey_pairwise s.memtable)

theorem compact_preserves_memtable (s : LSMTree) :
    (runState (compact_sstables s)).memtable = s.memtable := by
  unfold compact_sstables
  by_cases h1 : s.max_sstables < s.sstables.length
  · rw [if_pos h1]
    by_cases h2 : s.sstables.any (fun t => t.disk.isNone) = true
    · rw [if_pos h2]
      rfl
    · rw [if_neg h2]
      by_cases h3 : s.memtable_limit = 0
      · rw [if_pos h3]
        rfl
      · rw [if_neg h3]
        rfl
  · rw [if_neg h1]
    rfl

theorem findInSSTables_all_none (L : List SSTable) (s : LSMTree) (k : Int)
    (h : ∀ t ∈ L, search_sstable t k = none) :
    findInSSTables s k L = ("Key not found", s) := by
  induction L with
  | nil => rfl
  | cons t rest ih =>
    have ht := h t (List.mem_cons_self t rest)
    have : findInSSTables s k (t :: rest) = findInSSTables s k rest := by
      rw [findInSSTables, ht]
    rw [this]
    exact ih (fun u hu => h u (List.mem_cons_of_mem t hu))

theorem findInSSTables_state (L : List SSTable) (s : LSMTree) (k : Int) :
    findInSSTables s k L = ("Key not found", s) ∨
      ∃ v, findInSSTables s k L = (v, recordResult s k v) := by
  induction L with
  | nil => left; rfl
  | cons t rest ih =>
    rcases h : search_sstable t k with _ | w
    · have : findInSSTables s k (t :: rest) = findInSSTables s k rest := by
        rw [findInSSTables, h]
      rw [this]
      exact ih
    · right
      exact ⟨w, by rw [findInSSTables, h]⟩

theorem findOp_state (s : LSMTree) (k : Int) :
    (findOp s k).2 = s ∨ (findOp s k).2 = recordResult s k (findOp s k).1 := by
  unfold findOp
  cases hl : lookupDict k s.memtable with
  | none =>
    rcases findInSSTables_state s.sstables.reverse s k with h | ⟨v, h⟩
    · left
      rw [h]
    · right
      rw [h]
  | some v =>
    right
    rfl

/-- C1: the claim says a tombstoned key absent from the memtable resolves to
"not found" even when a segment still holds it.  The code violates this:
`find` never consults `deletion_log`, so after insert(5, "v"), an automatic
flush and delete(5), the key is tombstoned and absent from the memtable yet
`find(5)` returns the stale persisted value "v" instead of "Key not found". -/
theorem c1_find_ignores_tombstone :
    (5 : Int) ∈ stateC1.deletion_log ∧
    lookupDict 5 stateC1.memtable = none ∧
    (findOp stateC1 5).1 = "v" := by
  decide

/-- C2: the claim says `range` prefers newer segments over older ones and
excludes every tombstoned key.  The code violates both: `range_query` scans
`self.sstables` in list order (oldest first), so the oldest persisted value
for key 10 wins over the newer one, and it never consults `deletion_log`, so
the tombstoned key 10 is returned at all.  The claim requires `[]` here
(and, even ignoring the tombstone, value "b" rather than "a"). -/
theorem c2_range_oldest_wins_and_ignores_tombstone :
    range_query stateC2 0 100 = some [(10, "a")] ∧
    (10 : Int) ∈ stateC2.deletion_log := by
  decide

/-- C3: the claim says compaction is observationally a no-op on reads.  The
code violates it: in `stateB` (reachable via the public API) key 5 is
tombstoned but still persisted in segment 2, so `find(5)` returns "v";
running `enforce_final_compaction` applies the tombstone and afterwards
`find(5)` returns "Key not found" — the read result changed. -/
theorem c3_compaction_changes_find :
    (findOp stateB 5).1 = "v" ∧
    (findOp (runState (enforce_final_compaction stateB)) 5).1 = "Key not found" := by
  decide

/-- C4: the claim says no pre-existing segment is destroyed until every
replacement segment has been persisted.  The code does the opposite: the
storage-operation trace of `compact_sstables` on `stateB` deletes segment
files 2 and 3 (positions 2 and 3) before the sole replacement write
(position 4), so the first deletion precedes the first write; a write
failure at that point would find the old segments already destroyed. -/
theorem c4_compaction_destroys_before_writing :
    compact_disk_ops stateB =
      [DiskOp.readSeg 2, DiskOp.readSeg 3, DiskOp.deleteSeg 2, DiskOp.deleteSeg 3,
        DiskOp.writeSeg 4 [(6, "w")]] ∧
    firstDeleteIdx (compact_disk_ops stateB) < firstWriteIdx (compact_disk_ops stateB) := by
  decide

/-- C5: the claim says `memtable_limit = 0` is a supported degenerate
configuration under which all operations stay well-defined.  The code
violates it: after five inserts (each auto-flushing, leaving the memtable
empty), the sixth insert triggers a compaction whose chunking calls
`range(0, len(sorted_items), 0)` and raises `ValueError` — and by then the
old segment files were already deleted, so the error state has no segments
left at all. -/
theorem c5_zero_limit_insert_raises :
    stateC5.sstables.length = 5 ∧
    stateC5.memtable = [] ∧
    isOkE (insertOp stateC5 6 "f") = false ∧
    (runState (insertOp stateC5 6 "f")).sstables = [] := by
  decide

/-- C6: whenever an insert brings the memtable to `memtable_limit` entries or
above, a flush runs before the insert returns: the insert equals
`compact_sstables` applied to the flushed state (so the compaction threshold
check is performed), the new segment holds the memtable sorted ascending by
key with every tombstoned key dropped, it is appended as the newest segment
with the next unused identifier, the counter advances, and the memtable is
empty when the insert returns (whether or not the compaction raised). -/
theorem c6_flush_on_threshold (s : LSMTree) (k : Int) (v : String)
    (h : s.memtable_limit ≤ (insertState s k v).memtable.length) :
    insertOp s k v = compact_sstables (flushCore (insertState s k v)) ∧
    (flushCore (insertState s k v)).memtable = [] ∧
    (flushCore (insertState s k v)).sstables =
      (insertState s k v).sstables ++
        [⟨(insertState s k v).sstable_counter, some (flushData (insertState s k v))⟩] ∧
    (flushCore (insertState s k v)).sstable_counter = s.sstable_counter + 1 ∧
    (flushData (insertState s k v)).Pairwise (fun a b => a.1 ≤ b.1) ∧
    (∀ p ∈ flushData (insertState s k v), p.1 ∉ (insertState s k v).deletion_log) ∧
    (runState (insertOp s k v)).memtable = [] := by
  have heq : insertOp s k v = compact_sstables (flushCore (insertState s k v)) := by
    unfold insertOp flush_memtable
    rw [if_pos h]
  have hdrop : ∀ p ∈ flushData (insertState s k v),
      p.1 ∉ (insertState s k v).deletion_log := by
    intro p hp
    have := (List.mem_filter.mp hp).2
    simpa using this
  have hmem0 : (runState (insertOp s k v)).memtable = [] := by
    rw [heq, compact_preserves_memtable]
    rfl
  exact ⟨heq, rfl, rfl, rfl, flushData_sorted _, hdrop, hmem0⟩

/-- c6_flush_on_threshold applied to a fresh engine with `memtable_limit = 1`:
inserting one key reaches the threshold, so the flush facts hold there. -/
theorem c6_witness :
    (initLSM 1 5).memtable_limit ≤ (insertState (initLSM 1 5) 1 "a").memtable.length ∧
    (insertOp (initLSM 1 5) 1 "a" =
        compact_sstables (flushCore (insertState (initLSM 1 5) 1 "a")) ∧
      (flushCore (insertState (initLSM 1 5) 1 "a")).memtable = [] ∧
      (flushCore (insertState (initLSM 1 5) 1 "a")).sstables =
        (insertState (initLSM 1 5) 1 "a").sstables ++
          [⟨(insertState (initLSM 1 5) 1 "a").sstable_counter,
            some (flushData (insertState (initLSM 1 5) 1 "a"))⟩] ∧
      (flushCore (insertState (initLSM 1 5) 1 "a")).sstable_counter =
        (initLSM 1 5).sstable_counter + 1 ∧
      (flushData (insertState (initLSM 1 5) 1 "a")).Pairwise (fun a b => a.1 ≤ b.1) ∧
      (∀ p ∈ flushData (insertState (initLSM 1 5) 1 "a"),
        p.1 ∉ (insertState (initLSM 1 5) 1 "a").deletion_log) ∧
      (runState (insertOp (initLSM 1 5) 1 "a")).memtable = []) :=
  ⟨by decide, c6_flush_on_threshold (initLSM 1 5) 1 "a" (by decide)⟩

/-- C7: the claim says `insert(k, v)` always succeeds and that a `find(k)`
issued afterwards with no intervening write returns v.  The code violates
it: with the constructor default `memtable_limit = 0` (and
`max_sstables = 1`), the second insert's flush triggers a compaction that
raises `ValueError` (`range()` with step zero), and the error state has no
segments and an empty memtable left — the insert fails and destroys the
persisted data.  (A second divergence, outside this embedding because
segment files are modelled as their parsed records: a value containing ','
or a newline, e.g. insert(5, "a,b") with `memtable_limit = 1`, persists as
the line `5,a,b`, whose strip/split parse fails inside `search_sstable`, so
after the flush `find(5)` returns "Key not found" instead of the stored
value.) -/
theorem c7_insert_can_raise :
    isOkE (insertOp (runState (insertOp (initLSM 0 1) 1 "a")) 2 "b") = false ∧
    (runState (insertOp (runState (insertOp (initLSM 0 1) 1 "a")) 2 "b")).sstables = [] ∧
    (runState (insertOp (runState (insertOp (initLSM 0 1) 1 "a")) 2 "b")).memtable = [] := by
  decide

/-- C8 counterexample: the original claim fails in two ways.  First, the
"not found" result is the ordinary string "Key not found", so after
insert(1, "Key not found") the successful lookup of key 1 is
indistinguishable from the failed lookup of the absent key 2.  Second, a
deleted key is not guaranteed a "not found" result at all: in `stateC1`,
key 5 is tombstoned and absent from the memtable, yet `find(5)` returns the
stale persisted value "v", not "Key not found". -/
theorem c8_cex_sentinel_and_deleted :
    lookupDict 1 stateC8.memtable = some "Key not found" ∧
    lookupDict 2 stateC8.memtable = none ∧
    (findOp stateC8 1).1 = "Key not found" ∧
    (findOp stateC8 2).1 = "Key not found" ∧
    (5 : Int) ∈ stateC1.deletion_log ∧
    lookupDict 5 stateC1.memtable = none ∧
    (findOp stateC1 5).1 ≠ "Key not found" := by
  decide

/-- C8 (amended): `find` never raises (`findOp` is a total function; segment
read errors are caught inside `search_sstable`), and on a key that is in
neither the memtable nor any segment it returns the string "Key not found".
The original claim's scope must shrink twice: the sentinel is an ordinary
storable string, so a stored "Key not found" is indistinguishable from a
miss; and a deleted key whose stale copy persists in a segment resolves to
that stale value, not to "not found", so "missing or deleted" narrows to
"absent from the memtable and from every segment". -/
theorem c8_not_found_result (s : LSMTree) (k : Int)
    (h1 : lookupDict k s.memtable = none)
    (h2 : ∀ t ∈ s.sstables, search_sstable t k = none) :
    (findOp s k).1 = "Key not found" := by
  have heq : findOp s k = findInSSTables s k s.sstables.reverse := by
    unfold findOp
    rw [h1]
  rw [heq, findInSSTables_all_none _ _ _ (fun t ht => h2 t (List.mem_reverse.mp ht))]

/-- c8_not_found_result applied to `stateB` and key 7: key 7 is in neither
the memtable nor either persisted segment, so the find returns the
sentinel. -/
theorem c8_witness :
    lookupDict 7 stateB.memtable = none ∧
    (∀ t ∈ stateB.sstables, search_sstable t 7 = none) ∧
    (findOp stateB 7).1 = "Key not found" :=
  ⟨by decide, by decide, c8_not_found_result stateB 7 (by decide) (by decide)⟩

/-- C9: the claim says a read failure on one segment never aborts a
multi-segment read, for `find` and for `range`.  The code honours this only
for `find` (the exception is caught in `search_sstable`): in `stateC9`,
where the newer segment 1 is unreadable, `find(1)` still continues to
segment 0 and returns "a", but `range_query` has no exception handling, so
the same unreadable segment aborts the whole range query (modelled as
`none`) instead of returning the entries of segment 0. -/
theorem c9_read_failure_scopes :
    (findOp stateC9 1).1 = "a" ∧
    range_query stateC9 0 10 = none := by
  decide

/-- C10 counterexample: the claim says the diagnostics log grows with each
successful find.  It does not: `search_results` is keyed by the looked-up
key, so a second successful find of key 1 overwrites the entry and the log
stays at one entry. -/
theorem c10_cex_log_no_growth :
    (findOp stateC10 1).1 = "a" ∧
    (findOp stateC10 1).2.search_results.length = 1 ∧
    (findOp (findOp stateC10 1).2 1).1 = "a" ∧
    (findOp (findOp stateC10 1).2 1).2.search_results.length = 1 := by
  decide

/-- C10 (amended): `find` leaves the memtable, the segment list (hence every
segment's persisted data), the tombstone set, the identifier counter and the
configuration unchanged; the only state it may mutate is the
`search_results` diagnostics log, which either stays unchanged (unsuccessful
lookup) or records the returned value under the looked-up key — so it grows
only when a key not already recorded is successfully found. -/
theorem c10_find_frame (s : LSMTree) (k : Int) :
    (findOp s k).2.memtable = s.memtable ∧
    (findOp s k).2.sstables = s.sstables ∧
    (findOp s k).2.deletion_log = s.deletion_log ∧
    (findOp s k).2.sstable_counter = s.sstable_counter ∧
    (findOp s k).2.memtable_limit = s.memtable_limit ∧
    (findOp s k).2.max_sstables = s.max_sstables ∧
    ((findOp s k).2.search_results = s.search_results ∨
      (findOp s k).2.search_results = dictInsert k (findOp s k).1 s.search_results) := by
  rcases findOp_state s k with h | h
  · rw [h]
    exact ⟨rfl, rfl, rfl, rfl, rfl, rfl, Or.inl rfl⟩
  · rw [h]
    exact ⟨rfl, rfl, rfl, rfl, rfl, rfl, Or.inr rfl⟩
